import Mathlib

/-!
Shallow embedding of `flask_cloudant/__init__.py` (the whole repository's
source) together with a model of the small slice of the external `cloudant`
client library that it calls (`cloudant.CouchDB`, `cloudant.document.Document`)
and of the remote CouchDB server those calls reach over HTTP.

Conventions of the embedding:
  * Python dictionaries of document content become association lists
    `List (String × PyVal)`; the store-managed `_id` and `_rev` entries of a
    `cloudant` `Document` are kept in separate fields of the `Document`
    structure and re-inserted by `dictOf` where the code builds
    `dict(self.document)`.
  * Revision tokens are modelled as natural numbers; a freshly created
    document gets revision 1.
  * Every effectful Python call becomes a state-passing function
    `World → Except PyExc α × World`, so that the state reached when an
    exception propagates stays observable (Python exceptions do not roll
    back side effects).
  * `FlaskCloudant.CLIENT` is a class attribute, i.e. process-global mutable
    state; it lives in `World.client`.
-/

/-- Python values occurring as document content. -/
inductive PyVal where
  | str : String → PyVal
  | int : Int → PyVal
  | dict : List (String × PyVal) → PyVal
  | pynone : PyVal

/-- One Python `dict.__setitem__` step on an association list: overwrite the
value at the key if present, otherwise append the binding at the end. -/
def setField (fs : List (String × PyVal)) (kv : String × PyVal) : List (String × PyVal) :=
  if fs.any (fun p => p.1 == kv.1) then
    fs.map (fun p => if p.1 == kv.1 then (p.1, kv.2) else p)
  else fs ++ [kv]

/-- A document as persisted by the remote CouchDB server: its current revision
and its content fields (without the store-managed `_id`/`_rev`). -/
structure StoredDoc where
  rev : Nat
  fields : List (String × PyVal)

/-- The remote CouchDB server as the wrapped library observes it: which
credential pairs it accepts at session login, and which database names exist. -/
structure RemoteCouch where
  creds : List (Option String × Option String)
  dbs : List String

/-- The `cloudant.CouchDB` client object: the credentials and URL it was
constructed with (`cloudant.CouchDB(user, pwd, url=url)`). -/
structure CouchDB where
  user : Option String
  pwd : Option String
  url : Option String

/-- The global state every operation threads: the class attribute
`FlaskCloudant.CLIENT`, the remote server, the documents of the configured
database, instrumentation counters for successful `connect`/`disconnect`
calls, and the current connection state. -/
structure World where
  client : Option CouchDB
  server : RemoteCouch
  docs : List (String × StoredDoc)
  connects : Nat
  disconnects : Nat
  connected : Bool

/-- Look a document id up in the remote database. -/
def lookupDoc : List (String × StoredDoc) → String → Option StoredDoc
  | [], _ => none
  | p :: t, i => if p.1 == i then some p.2 else lookupDoc t i

/-- Remove a document id from the remote database. -/
def removeDoc : List (String × StoredDoc) → String → List (String × StoredDoc)
  | [], _ => []
  | p :: t, i => if p.1 == i then removeDoc t i else p :: removeDoc t i

/-- Server-assigned id for a document created without `_id`. -/
def freshId (w : World) : String := "doc-" ++ toString w.docs.length

/-- Context argument carried by a `FlaskCloudantException`: a string, Python
`None` (a missing config value), or the type object `dict`. -/
inductive CtxArg where
  | str : String → CtxArg
  | pynone : CtxArg
  | typeDict : CtxArg
deriving DecidableEq

/-- Modelled from the spec: `flask_cloudant.error.FlaskCloudantException`
(the repository file `flask_cloudant/error.py` is not in the sources); per the
spec's error-mapper section it carries a status code and context arguments. -/
structure FlaskCloudantException where
  status : Nat
  args : List CtxArg

/-- The exceptions that can propagate out of the embedded code: the domain
exception, `requests` HTTP errors with a response status, `cloudant` document
exceptions, and the plain Python errors the code can raise. -/
inductive PyExc where
  | fc : FlaskCloudantException → PyExc
  | httpError : Nat → PyExc
  | cloudantDocumentException : Nat → PyExc
  | assertionError : PyExc
  | keyError : PyExc
  | attributeError : PyExc
  | missingSchema : PyExc

/-- State-passing result type of an effectful Python call. -/
abbrev PyM (α : Type) := World → Except PyExc α × World

/-- Turn an optional configured string into the context argument the code
passes to `FlaskCloudantException`. -/
def ctxOf : Option String → CtxArg
  | some s => CtxArg.str s
  | none => CtxArg.pynone

/-- The `cloudant.document.Document` object: its `_id` and `_rev` entries and
its remaining content fields. -/
structure Document where
  docId : Option String
  rev : Option Nat
  fields : List (String × PyVal)

/-- Models `cloudant.document.Document.exists()`: `False` when the handle has
no id, otherwise whether the id resolves on the remote database. A pure read,
it never fails and never changes state. -/
def Document.exists' (d : Document) (w : World) : Bool :=
  match d.docId with
  | none => false
  | some i => (lookupDoc w.docs i).isSome

/-- Models `cloudant.document.Document.fetch()`: populate content and revision
from the store; an absent id gives no document URL (a `requests` error), an
absent remote document surfaces as `HTTPError` 404. -/
def Document.fetch (d : Document) : PyM Document := fun w =>
  match d.docId with
  | none => (Except.error PyExc.missingSchema, w)
  | some i =>
    match lookupDoc w.docs i with
    | none => (Except.error (PyExc.httpError 404), w)
    | some sd => (Except.ok { d with rev := some sd.rev, fields := sd.fields }, w)

/-- Models `cloudant.document.Document.delete()`: requires a cached `_rev`
(else `CloudantDocumentException` 103), deletes the remote document at
id+revision (404 if absent, 409 on a stale revision), then clears the local
dictionary keeping only `_id`. -/
def Document.delete (d : Document) : PyM Document := fun w =>
  match d.rev with
  | none => (Except.error (PyExc.cloudantDocumentException 103), w)
  | some r =>
    match d.docId with
    | none => (Except.error PyExc.missingSchema, w)
    | some i =>
      match lookupDoc w.docs i with
      | none => (Except.error (PyExc.httpError 404), w)
      | some sd =>
        if sd.rev = r then
          (Except.ok { docId := some i, rev := none, fields := [] },
           { w with docs := removeDoc w.docs i })
        else (Except.error (PyExc.httpError 409), w)

/-- Models `cloudant.document.Document.create()`: POST the document; the
server assigns an id when none is set, answers 409 when the id already exists,
and otherwise persists the content at a fresh revision. -/
def Document.create (d : Document) : PyM Document := fun w =>
  let i := match d.docId with
    | some i => i
    | none => freshId w
  match lookupDoc w.docs i with
  | some _ => (Except.error (PyExc.httpError 409), w)
  | none =>
    (Except.ok { docId := some i, rev := some 1, fields := d.fields },
     { w with docs := w.docs ++ [(i, { rev := 1, fields := d.fields })] })

/-- Models the static `cloudant.document.Document.field_set(doc, key, value)`. -/
def Document.field_set (d : Document) (k : String) (v : PyVal) : Document :=
  { d with fields := setField d.fields (k, v) }

/-- Models Python `dict(self.document)`: the content fields together with the
store-managed `_id` and `_rev` entries, as a fresh dictionary. -/
def dictOf (d : Document) : List (String × PyVal) :=
  (match d.docId with
    | some i => [("_id", PyVal.str i)]
    | none => [])
  ++ (match d.rev with
    | some r => [("_rev", PyVal.int r)]
    | none => [])
  ++ d.fields

/-- The `FlaskCloudant` facade instance; its only per-instance state is the
`_db` database handle set by `init_app` (the client is class-level). -/
structure FlaskCloudant where
  _db : Option String

/-- The `FlaskCloudantDocument` handle: wraps one `cloudant` document. -/
structure FlaskCloudantDocument where
  document : Document

/-- Models `FlaskCloudant.__connect__`, i.e. `FlaskCloudant.CLIENT.connect()`:
`AttributeError` when `CLIENT` is still `None`, `HTTPError` 401 when the
server rejects the client's credentials at session login, and otherwise a
successful transition to the `Connected` state. -/
def FlaskCloudant.connect : PyM Unit := fun w =>
  match w.client with
  | none => (Except.error PyExc.attributeError, w)
  | some c =>
    if (c.user, c.pwd) ∈ w.server.creds then
      (Except.ok (), { w with connects := w.connects + 1, connected := true })
    else (Except.error (PyExc.httpError 401), w)

/-- Models `FlaskCloudant.__disconnect__`, i.e.
`FlaskCloudant.CLIENT.disconnect()`: `AttributeError` when `CLIENT` is `None`,
otherwise tears the session down unconditionally. -/
def FlaskCloudant.disconnect : PyM Unit := fun w =>
  match w.client with
  | none => (Except.error PyExc.attributeError, w)
  | some _ =>
    (Except.ok (), { w with disconnects := w.disconnects + 1, connected := false })

/-- Models `FlaskCloudantDocument.__init__(cloudant_doc, exists=True)`:
in must-exist mode fetch the document or raise `FlaskCloudantException(404,
cloudant_doc['_id'])`; in new mode just wrap the handle. -/
def FlaskCloudantDocument.init (cloudant_doc : Document) (must_exist : Bool) :
    PyM FlaskCloudantDocument := fun w =>
  if must_exist then
    if cloudant_doc.exists' w then
      match cloudant_doc.fetch w with
      | (Except.ok d, w') => (Except.ok ⟨d⟩, w')
      | (Except.error e, w') => (Except.error e, w')
    else
      match cloudant_doc.docId with
      | some i => (Except.error (PyExc.fc ⟨404, [CtxArg.str i]⟩), w)
      | none => (Except.error PyExc.keyError, w)
  else (Except.ok ⟨cloudant_doc⟩, w)

/-- Models `FlaskCloudant.get(document_id)`. -/
def FlaskCloudant.get (_self : FlaskCloudant) (document_id : String) :
    PyM FlaskCloudantDocument := fun w =>
  match FlaskCloudant.connect w with
  | (Except.error e, w1) => (Except.error e, w1)
  | (Except.ok _, w1) =>
    match FlaskCloudantDocument.init ⟨some document_id, none, []⟩ true w1 with
    | (Except.error e, w2) => (Except.error e, w2)
    | (Except.ok doc, w2) =>
      match FlaskCloudant.disconnect w2 with
      | (Except.error e, w3) => (Except.error e, w3)
      | (Except.ok _, w3) => (Except.ok doc, w3)

/-- Models `FlaskCloudantDocument.refresh()`: scoped connect, fetch,
disconnect (a fetch failure propagates before the disconnect runs). -/
def FlaskCloudantDocument.refresh (self : FlaskCloudantDocument) :
    PyM FlaskCloudantDocument := fun w =>
  match FlaskCloudant.connect w with
  | (Except.error e, w1) => (Except.error e, w1)
  | (Except.ok _, w1) =>
    match self.document.fetch w1 with
    | (Except.error e, w2) => (Except.error e, w2)
    | (Except.ok d, w2) =>
      match FlaskCloudant.disconnect w2 with
      | (Except.error e, w3) => (Except.error e, w3)
      | (Except.ok _, w3) => (Except.ok ⟨d⟩, w3)

/-- Models `FlaskCloudantDocument.content(content=None)`: get mode refreshes
and returns `dict(self.document)`; set mode asserts the value is a `dict`
(a bare `AssertionError` otherwise) and merges each key/value pair into the
document's fields via `field_set`, persisting nothing. The returned pair is
(value returned to the caller, handle after the call). -/
def FlaskCloudantDocument.content (self : FlaskCloudantDocument)
    (content : Option PyVal) :
    PyM (Option (List (String × PyVal)) × FlaskCloudantDocument) := fun w =>
  match content with
  | none =>
    match self.refresh w with
    | (Except.error e, w') => (Except.error e, w')
    | (Except.ok self', w') => (Except.ok (some (dictOf self'.document), self'), w')
  | some v =>
    match v with
    | PyVal.dict d =>
      (Except.ok (none,
        ⟨d.foldl (fun acc kv => Document.field_set acc kv.1 kv.2) self.document⟩), w)
    | _ => (Except.error PyExc.assertionError, w)

/-- Models `FlaskCloudantDocument.exists()`: scoped connect/disconnect around
the remote existence check. -/
def FlaskCloudantDocument.exists' (self : FlaskCloudantDocument) :
    PyM Bool := fun w =>
  match FlaskCloudant.connect w with
  | (Except.error e, w1) => (Except.error e, w1)
  | (Except.ok _, w1) =>
    let ex := self.document.exists' w1
    match FlaskCloudant.disconnect w1 with
    | (Except.error e, w2) => (Except.error e, w2)
    | (Except.ok _, w2) => (Except.ok ex, w2)

/-- Models `FlaskCloudantDocument.save()`, i.e. `self.document.create()`. -/
def FlaskCloudantDocument.save (self : FlaskCloudantDocument) :
    PyM FlaskCloudantDocument := fun w =>
  match self.document.create w with
  | (Except.error e, w') => (Except.error e, w')
  | (Except.ok d, w') => (Except.ok ⟨d⟩, w')

/-- Models `FlaskCloudantDocument.delete()`, i.e. `self.document.delete()`. -/
def FlaskCloudantDocument.delete (self : FlaskCloudantDocument) :
    PyM FlaskCloudantDocument := fun w =>
  match self.document.delete w with
  | (Except.error e, w') => (Except.error e, w')
  | (Except.ok d, w') => (Except.ok ⟨d⟩, w')

/-- Models `FlaskCloudant.put(content, document_id=None, override=False)`. -/
def FlaskCloudant.put (_self : FlaskCloudant) (content : PyVal)
    (document_id : Option String) (override : Bool) :
    PyM FlaskCloudantDocument := fun w =>
  match FlaskCloudant.connect w with
  | (Except.error e, w1) => (Except.error e, w1)
  | (Except.ok _, w1) =>
    let cloudant_doc : Document := ⟨document_id, none, []⟩
    if cloudant_doc.exists' w1 && !override then
      match document_id with
      | some i => (Except.error (PyExc.fc ⟨405, [CtxArg.str i]⟩), w1)
      | none => (Except.error PyExc.keyError, w1)
    else
      match (if cloudant_doc.exists' w1 && override then
               match cloudant_doc.fetch w1 with
               | (Except.ok d, w2) => d.delete w2
               | (Except.error e, w2) => (Except.error e, w2)
             else (Except.ok cloudant_doc, w1)) with
      | (Except.error e, w2) => (Except.error e, w2)
      | (Except.ok cdoc2, w2) =>
        let doc : FlaskCloudantDocument := ⟨cdoc2⟩
        match doc.content (some content) w2 with
        | (Except.error PyExc.assertionError, w3) =>
          (Except.error (PyExc.fc ⟨700, [CtxArg.str "Content", CtxArg.typeDict]⟩), w3)
        | (Except.error e, w3) => (Except.error e, w3)
        | (Except.ok (_, doc2), w3) =>
          match doc2.save w3 with
          | (Except.error e, w4) => (Except.error e, w4)
          | (Except.ok doc3, w4) =>
            match FlaskCloudant.disconnect w4 with
            | (Except.error e, w5) => (Except.error e, w5)
            | (Except.ok _, w5) => (Except.ok doc3, w5)

/-- Models `FlaskCloudant.delete(document_id)`: `self.get(document_id)` then a
scoped `doc.delete()`. -/
def FlaskCloudant.delete (self : FlaskCloudant) (document_id : String) :
    PyM Unit := fun w =>
  match self.get document_id w with
  | (Except.error e, w1) => (Except.error e, w1)
  | (Except.ok doc, w1) =>
    match FlaskCloudant.connect w1 with
    | (Except.error e, w2) => (Except.error e, w2)
    | (Except.ok _, w2) =>
      match doc.delete w2 with
      | (Except.error e, w3) => (Except.error e, w3)
      | (Except.ok _, w3) =>
        match FlaskCloudant.disconnect w3 with
        | (Except.error e, w4) => (Except.error e, w4)
        | (Except.ok _, w4) => (Except.ok (), w4)

/-- Follows the spec's words for the delete operation: "`delete(id)`:
equivalent to `get(id)` followed by a scoped delete of the returned handle."
Written independently of `FlaskCloudant.delete`, to be compared with it. -/
def FlaskCloudant.deleteSpec (self : FlaskCloudant) (document_id : String) :
    PyM Unit := fun w =>
  match self.get document_id w with
  | (Except.error e, w1) => (Except.error e, w1)
  | (Except.ok handle, w1) =>
    match FlaskCloudant.connect w1 with
    | (Except.error e, w2) => (Except.error e, w2)
    | (Except.ok _, w2) =>
      match handle.delete w2 with
      | (Except.error e, w3) => (Except.error e, w3)
      | (Except.ok _, w3) =>
        match FlaskCloudant.disconnect w3 with
        | (Except.error e, w4) => (Except.error e, w4)
        | (Except.ok _, w4) => (Except.ok (), w4)

/-- The Flask application's configuration restricted to the four keys the code
reads with `app.config.get(...)` (`None` when a key is missing). -/
structure Config where
  couch_user : Option String
  couch_pwd : Option String
  couch_db : Option String
  couch_url : Option String

/-- Models `FlaskCloudant.init_app(app)`: build the `cloudant.CouchDB` client
(unconditionally replacing the class-level `CLIENT`), connect, look the
configured database up (`CLIENT[couch_db]`, a `KeyError` when absent or when
`COUCH_DB` is missing), disconnect; the `except` clauses map an `HTTPError`
to `FlaskCloudantException(status, couch_user)` and a `KeyError` to
`FlaskCloudantException(400, couch_db)`. -/
def FlaskCloudant.init_app (self : FlaskCloudant) (app : Config) :
    PyM FlaskCloudant := fun w =>
  let w1 := { w with client := some ⟨app.couch_user, app.couch_pwd, app.couch_url⟩ }
  match FlaskCloudant.connect w1 with
  | (Except.error (PyExc.httpError s), w2) =>
    (Except.error (PyExc.fc ⟨s, [ctxOf app.couch_user]⟩), w2)
  | (Except.error e, w2) => (Except.error e, w2)
  | (Except.ok _, w2) =>
    match app.couch_db with
    | none => (Except.error (PyExc.fc ⟨400, [CtxArg.pynone]⟩), w2)
    | some db =>
      if db ∈ w2.server.dbs then
        match FlaskCloudant.disconnect w2 with
        | (Except.error e, w3) => (Except.error e, w3)
        | (Except.ok _, w3) => (Except.ok { self with _db := some db }, w3)
      else (Except.error (PyExc.fc ⟨400, [CtxArg.str db]⟩), w2)

/-- The client currently installed is present and its credentials are accepted
by the server, so that `__connect__` succeeds. -/
def authOK (w : World) : Prop :=
  ∃ c, w.client = some c ∧ (c.user, c.pwd) ∈ w.server.creds

/-! ### Concrete fixtures used by witnesses and counterexamples -/

/-- A server accepting one credential pair and hosting one database. -/
def srv0 : RemoteCouch := { creds := [(some "u", some "p")], dbs := ["db"] }

/-- A client built from the accepted credentials. -/
def client0 : CouchDB := { user := some "u", pwd := some "p", url := some "http://couch" }

/-- A stored document with one content field. -/
def sdA : StoredDoc := { rev := 1, fields := [("name", PyVal.str "a")] }

/-- An initialized world with an empty database. -/
def wEmpty : World :=
  { client := some client0, server := srv0, docs := [], connects := 0,
    disconnects := 0, connected := false }

/-- An initialized world whose database holds `sdA` at id `"x"`. -/
def wX : World := { wEmpty with docs := [("x", sdA)] }

/-- A facade instance bound to the configured database. -/
def fcApp : FlaskCloudant := { _db := some "db" }

/-! ### Helper lemmas about the remote store -/

theorem lookupDoc_removeDoc_append (ds l : List (String × StoredDoc)) (i : String) :
    lookupDoc (removeDoc ds i ++ l) i = lookupDoc l i := by
  induction ds with
  | nil => rfl
  | cons p t ih =>
    cases h : (p.1 == i) with
    | true => simp [removeDoc, h, ih]
    | false => simp [removeDoc, lookupDoc, h, ih]

theorem lookupDoc_removeDoc (ds : List (String × StoredDoc)) (i : String) :
    lookupDoc (removeDoc ds i) i = none := by
  have := lookupDoc_removeDoc_append ds [] i
  simpa using this

/-- C5: for an id that does not resolve, `get` raises `FlaskCloudantException`
with status 404 carrying the id; for an id that resolves, `get` returns a
`FlaskCloudantDocument` handle populated by a fetch (content fields and
revision taken from the store). -/
theorem C5_get_notfound_or_populated (f : FlaskCloudant) (i : String) (w : World)
    (hauth : authOK w) :
    (lookupDoc w.docs i = none →
      FlaskCloudant.get f i w =
        (Except.error (PyExc.fc ⟨404, [CtxArg.str i]⟩),
         { w with connects := w.connects + 1, connected := true }))
    ∧ (∀ sd, lookupDoc w.docs i = some sd →
      FlaskCloudant.get f i w =
        (Except.ok ⟨⟨some i, some sd.rev, sd.fields⟩⟩,
         { w with connects := w.connects + 1, disconnects := w.disconnects + 1,
                  connected := false })) := by
  obtain ⟨c, hc, hm⟩ := hauth
  constructor
  · intro hn
    simp [FlaskCloudant.get, FlaskCloudant.connect, FlaskCloudantDocument.init,
          Document.exists', Document.fetch, FlaskCloudant.disconnect, hc, hm, hn]
  · intro sd hs
    simp [FlaskCloudant.get, FlaskCloudant.connect, FlaskCloudantDocument.init,
          Document.exists', Document.fetch, FlaskCloudant.disconnect, hc, hm, hs]

/-- Witness for C5 at concrete inputs: a missing id `"y"` and a present id
`"x"` in the one-document world `wX`. -/
theorem C5_witness :
    (FlaskCloudant.get fcApp "y" wX =
      (Except.error (PyExc.fc ⟨404, [CtxArg.str "y"]⟩),
       { wX with connects := 1, connected := true }))
    ∧ FlaskCloudant.get fcApp "x" wX =
        (Except.ok ⟨⟨some "x", some 1, [("name", PyVal.str "a")]⟩⟩,
         { wX with connects := 1, disconnects := 1, connected := false }) :=
  ⟨(C5_get_notfound_or_populated fcApp "y" wX ⟨client0, rfl, by decide⟩).1 rfl,
   (C5_get_notfound_or_populated fcApp "x" wX ⟨client0, rfl, by decide⟩).2 sdA rfl⟩

/-- C9: `exists()` on a document handle performs one scoped connect/disconnect
pair and returns exactly the remote resolution of the handle's id, and its
outcome is independent of the handle's locally cached fields and revision. -/
theorem C9_exists_scoped_remote_check (h : FlaskCloudantDocument) (w : World)
    (hauth : authOK w) :
    FlaskCloudantDocument.exists' h w =
      (Except.ok (h.document.exists' w),
       { w with connects := w.connects + 1, disconnects := w.disconnects + 1,
                connected := false })
    ∧ ∀ (fields : List (String × PyVal)) (rev : Option Nat),
        FlaskCloudantDocument.exists' ⟨⟨h.document.docId, rev, fields⟩⟩ w =
          FlaskCloudantDocument.exists' h w := by
  obtain ⟨c, hc, hm⟩ := hauth
  constructor
  · simp [FlaskCloudantDocument.exists', FlaskCloudant.connect,
          FlaskCloudant.disconnect, Document.exists', hc, hm]
  · intro fields rev
    simp [FlaskCloudantDocument.exists', FlaskCloudant.connect,
          FlaskCloudant.disconnect, Document.exists', hc, hm]

/-- Witness for C9: a handle for id `"x"` whose local cache is empty and
unfetched still reports remote existence in `wX`. -/
theorem C9_witness :
    FlaskCloudantDocument.exists' ⟨⟨some "x", none, []⟩⟩ wX =
      (Except.ok ((⟨some "x", none, []⟩ : Document).exists' wX),
       { wX with connects := 1, disconnects := 1, connected := false }) :=
  (C9_exists_scoped_remote_check ⟨⟨some "x", none, []⟩⟩ wX ⟨client0, rfl, by decide⟩).1

/-! ### Connect/disconnect accounting on successful executions -/

theorem scopedBalanced_get (f : FlaskCloudant) (i : String) (w w' : World)
    (d : FlaskCloudantDocument)
    (h : FlaskCloudant.get f i w = (Except.ok d, w')) :
    w'.connects = w.connects + 1 ∧ w'.disconnects = w.disconnects + 1 ∧
      w'.connected = false := by
  rcases hcl : w.client with _ | c
  · simp [FlaskCloudant.get, FlaskCloudant.connect, hcl] at h
  · by_cases hm : (c.user, c.pwd) ∈ w.server.creds
    · rcases hl : lookupDoc w.docs i with _ | sd
      · simp [FlaskCloudant.get, FlaskCloudant.connect, FlaskCloudantDocument.init,
          Document.exists', Document.fetch, FlaskCloudant.disconnect, hcl, hm, hl] at h
      · simp [FlaskCloudant.get, FlaskCloudant.connect, FlaskCloudantDocument.init,
          Document.exists', Document.fetch, FlaskCloudant.disconnect, hcl, hm, hl] at h
        obtain ⟨h1, h2⟩ := h
        subst h2
        simp
    · simp [FlaskCloudant.get, FlaskCloudant.connect, hcl, hm] at h

/-- Folding `field_set` over the pairs of a dictionary only rewrites the
document's fields, leaving id and revision untouched. -/
theorem foldl_field_set (xs : List (String × PyVal)) (d : Document) :
    xs.foldl (fun acc kv => Document.field_set acc kv.1 kv.2) d
      = { d with fields := xs.foldl (fun fs kv => setField fs kv) d.fields } := by
  induction xs generalizing d with
  | nil => rfl
  | cons kv t ih =>
    rw [List.foldl_cons, List.foldl_cons, ih]
    rfl

theorem scopedBalanced_put (f : FlaskCloudant) (c : PyVal) (di : Option String)
    (ov : Bool) (w w' : World) (d : FlaskCloudantDocument)
    (h : FlaskCloudant.put f c di ov w = (Except.ok d, w')) :
    w'.connects = w.connects + 1 ∧ w'.disconnects = w.disconnects + 1 ∧
      w'.connected = false := by
  rcases hcl : w.client with _ | cl
  · simp [FlaskCloudant.put, FlaskCloudant.connect, hcl] at h
  by_cases hm : (cl.user, cl.pwd) ∈ w.server.creds
  swap
  · simp [FlaskCloudant.put, FlaskCloudant.connect, hcl, hm] at h
  rcases hdi : di with _ | i
  · rcases hcv : c with s | n | xs | _
    · simp [FlaskCloudant.put, FlaskCloudant.connect, Document.exists',
        FlaskCloudantDocument.content, hcl, hm, hdi, hcv] at h
    · simp [FlaskCloudant.put, FlaskCloudant.connect, Document.exists',
        FlaskCloudantDocument.content, hcl, hm, hdi, hcv] at h
    · rcases hf : lookupDoc w.docs ("doc-" ++ toString w.docs.length) with _ | sd0
      · simp [FlaskCloudant.put, FlaskCloudant.connect, Document.exists',
          FlaskCloudantDocument.content, FlaskCloudantDocument.save, Document.create,
          freshId, foldl_field_set, FlaskCloudant.disconnect, hcl, hm, hdi, hcv, hf] at h
        obtain ⟨h1, h2⟩ := h
        subst h2
        simp
      · simp [FlaskCloudant.put, FlaskCloudant.connect, Document.exists',
          FlaskCloudantDocument.content, FlaskCloudantDocument.save, Document.create,
          freshId, foldl_field_set, FlaskCloudant.disconnect, hcl, hm, hdi, hcv, hf] at h
    · simp [FlaskCloudant.put, FlaskCloudant.connect, Document.exists',
        FlaskCloudantDocument.content, hcl, hm, hdi, hcv] at h
  · rcases hl : lookupDoc w.docs i with _ | sd
    · rcases hcv : c with s | n | xs | _
      · simp [FlaskCloudant.put, FlaskCloudant.connect, Document.exists',
          FlaskCloudantDocument.content, hcl, hm, hdi, hcv, hl] at h
      · simp [FlaskCloudant.put, FlaskCloudant.connect, Document.exists',
          FlaskCloudantDocument.content, hcl, hm, hdi, hcv, hl] at h
      · simp [FlaskCloudant.put, FlaskCloudant.connect, Document.exists',
          FlaskCloudantDocument.content, FlaskCloudantDocument.save, Document.create,
          foldl_field_set, FlaskCloudant.disconnect, hcl, hm, hdi, hcv, hl] at h
        obtain ⟨h1, h2⟩ := h
        subst h2
        simp
      · simp [FlaskCloudant.put, FlaskCloudant.connect, Document.exists',
          FlaskCloudantDocument.content, hcl, hm, hdi, hcv, hl] at h
    · cases ov with
      | false =>
        simp [FlaskCloudant.put, FlaskCloudant.connect, Document.exists',
          hcl, hm, hdi, hl] at h
      | true =>
        rcases hcv : c with s | n | xs | _
        · simp [FlaskCloudant.put, FlaskCloudant.connect, Document.exists',
            Document.fetch, Document.delete, FlaskCloudantDocument.content,
            hcl, hm, hdi, hcv, hl] at h
        · simp [FlaskCloudant.put, FlaskCloudant.connect, Document.exists',
            Document.fetch, Document.delete, FlaskCloudantDocument.content,
            hcl, hm, hdi, hcv, hl] at h
        · simp [FlaskCloudant.put, FlaskCloudant.connect, Document.exists',
            Document.fetch, Document.delete, FlaskCloudantDocument.content,
            FlaskCloudantDocument.save, Document.create, FlaskCloudant.disconnect,
            foldl_field_set, lookupDoc_removeDoc, hcl, hm, hdi, hcv, hl] at h
          obtain ⟨h1, h2⟩ := h
          subst h2
          simp
        · simp [FlaskCloudant.put, FlaskCloudant.connect, Document.exists',
            Document.fetch, Document.delete, FlaskCloudantDocument.content,
            hcl, hm, hdi, hcv, hl] at h

theorem scopedBalanced_delete (f : FlaskCloudant) (i : String) (w w' : World)
    (h : FlaskCloudant.delete f i w = (Except.ok (), w')) :
    w'.connects = w.connects + 2 ∧ w'.disconnects = w.disconnects + 2 ∧
      w'.connected = false := by
  rcases hcl : w.client with _ | cl
  · simp [FlaskCloudant.delete, FlaskCloudant.get, FlaskCloudant.connect, hcl] at h
  by_cases hm : (cl.user, cl.pwd) ∈ w.server.creds
  swap
  · simp [FlaskCloudant.delete, FlaskCloudant.get, FlaskCloudant.connect, hcl, hm] at h
  rcases hl : lookupDoc w.docs i with _ | sd
  · simp [FlaskCloudant.delete, FlaskCloudant.get, FlaskCloudant.connect,
      FlaskCloudantDocument.init, Document.exists', Document.fetch,
      FlaskCloudant.disconnect, hcl, hm, hl] at h
  · simp [FlaskCloudant.delete, FlaskCloudant.get, FlaskCloudant.connect,
      FlaskCloudantDocument.init, Document.exists', Document.fetch,
      FlaskCloudantDocument.delete, Document.delete, FlaskCloudant.disconnect,
      hcl, hm, hl] at h
    subst h
    simp

theorem scopedBalanced_exists (fd : FlaskCloudantDocument) (w w' : World) (b : Bool)
    (h : FlaskCloudantDocument.exists' fd w = (Except.ok b, w')) :
    w'.connects = w.connects + 1 ∧ w'.disconnects = w.disconnects + 1 ∧
      w'.connected = false := by
  rcases hcl : w.client with _ | cl
  · simp [FlaskCloudantDocument.exists', FlaskCloudant.connect, hcl] at h
  by_cases hm : (cl.user, cl.pwd) ∈ w.server.creds
  · simp [FlaskCloudantDocument.exists', FlaskCloudant.connect,
      FlaskCloudant.disconnect, hcl, hm] at h
    obtain ⟨h1, h2⟩ := h
    subst h2
    simp
  · simp [FlaskCloudantDocument.exists', FlaskCloudant.connect, hcl, hm] at h

theorem scopedBalanced_refresh (fd : FlaskCloudantDocument) (w w' : World)
    (d : FlaskCloudantDocument)
    (h : FlaskCloudantDocument.refresh fd w = (Except.ok d, w')) :
    w'.connects = w.connects + 1 ∧ w'.disconnects = w.disconnects + 1 ∧
      w'.connected = false := by
  rcases hcl : w.client with _ | cl
  · simp [FlaskCloudantDocument.refresh, FlaskCloudant.connect, hcl] at h
  by_cases hm : (cl.user, cl.pwd) ∈ w.server.creds
  swap
  · simp [FlaskCloudantDocument.refresh, FlaskCloudant.connect, hcl, hm] at h
  rcases hdi : fd.document.docId with _ | i
  · simp [FlaskCloudantDocument.refresh, FlaskCloudant.connect, Document.fetch,
      hcl, hm, hdi] at h
  rcases hl : lookupDoc w.docs i with _ | sd
  · simp [FlaskCloudantDocument.refresh, FlaskCloudant.connect, Document.fetch,
      FlaskCloudant.disconnect, hcl, hm, hdi, hl] at h
  · simp [FlaskCloudantDocument.refresh, FlaskCloudant.connect, Document.fetch,
      FlaskCloudant.disconnect, hcl, hm, hdi, hl] at h
    obtain ⟨h1, h2⟩ := h
    subst h2
    simp

/-- C1 (amended): on every successful execution of the public operations
(`FlaskCloudant.get`, `put`, `delete` and `FlaskCloudantDocument.exists`,
`refresh`) the connect and disconnect calls are balanced (one scoped pair per
connect, two for `delete`, which runs `get`'s pair and its own) and the
connection is left in the `Disconnected` state; the code has no
release-on-exception, so this balance holds only for the non-raising
executions (see the counterexample for a raising one). -/
theorem C1_scoped_release_on_success :
    (∀ f i w w' d, FlaskCloudant.get f i w = (Except.ok d, w') →
      w'.connects = w.connects + 1 ∧ w'.disconnects = w.disconnects + 1 ∧
        w'.connected = false)
    ∧ (∀ f c di ov w w' d, FlaskCloudant.put f c di ov w = (Except.ok d, w') →
      w'.connects = w.connects + 1 ∧ w'.disconnects = w.disconnects + 1 ∧
        w'.connected = false)
    ∧ (∀ f i w w', FlaskCloudant.delete f i w = (Except.ok (), w') →
      w'.connects = w.connects + 2 ∧ w'.disconnects = w.disconnects + 2 ∧
        w'.connected = false)
    ∧ (∀ fd w w' b, FlaskCloudantDocument.exists' fd w = (Except.ok b, w') →
      w'.connects = w.connects + 1 ∧ w'.disconnects = w.disconnects + 1 ∧
        w'.connected = false)
    ∧ (∀ fd w w' d, FlaskCloudantDocument.refresh fd w = (Except.ok d, w') →
      w'.connects = w.connects + 1 ∧ w'.disconnects = w.disconnects + 1 ∧
        w'.connected = false) :=
  ⟨fun f i w w' d h => scopedBalanced_get f i w w' d h,
   fun f c di ov w w' d h => scopedBalanced_put f c di ov w w' d h,
   fun f i w w' h => scopedBalanced_delete f i w w' h,
   fun fd w w' b h => scopedBalanced_exists fd w w' b h,
   fun fd w w' d h => scopedBalanced_refresh fd w w' d h⟩

/-- Witness for C1 at a concrete successful `get`: in `wX` the connect count
and the disconnect count both rise by one and the connection ends
`Disconnected`. -/
theorem C1_witness :
    ({ wX with connects := 1, disconnects := 1, connected := false } : World).connects
        = wX.connects + 1
    ∧ ({ wX with connects := 1, disconnects := 1, connected := false } : World).disconnects
        = wX.disconnects + 1
    ∧ ({ wX with connects := 1, disconnects := 1, connected := false } : World).connected
        = false :=
  C1_scoped_release_on_success.1 fcApp "x" wX
    { wX with connects := 1, disconnects := 1, connected := false }
    ⟨⟨some "x", some 1, [("name", PyVal.str "a")]⟩⟩ rfl

/-- Counterexample to C1 as stated: `get` of an id that is not stored raises
`FlaskCloudantException(404)` after `connect()` and never reaches
`disconnect()`, so the failing execution ends with one connect, zero
disconnects, and the connection still in the `Connected` state. -/
theorem C1_counterexample :
    (FlaskCloudant.get fcApp "missing" wEmpty).1 =
      Except.error (PyExc.fc ⟨404, [CtxArg.str "missing"]⟩)
    ∧ (FlaskCloudant.get fcApp "missing" wEmpty).2.connects = 1
    ∧ (FlaskCloudant.get fcApp "missing" wEmpty).2.disconnects = 0
    ∧ (FlaskCloudant.get fcApp "missing" wEmpty).2.connected = true :=
  ⟨rfl, rfl, rfl, rfl⟩

/-! ### Effect of raising executions on the persisted store -/

theorem get_error_docs_unchanged (f : FlaskCloudant) (i : String) (w w' : World)
    (e : PyExc) (h : FlaskCloudant.get f i w = (Except.error e, w')) :
    w'.docs = w.docs := by
  rcases hcl : w.client with _ | cl
  · simp [FlaskCloudant.get, FlaskCloudant.connect, hcl] at h
    obtain ⟨h1, h2⟩ := h
    subst h2
    rfl
  by_cases hm : (cl.user, cl.pwd) ∈ w.server.creds
  swap
  · simp [FlaskCloudant.get, FlaskCloudant.connect, hcl, hm] at h
    obtain ⟨h1, h2⟩ := h
    subst h2
    rfl
  rcases hl : lookupDoc w.docs i with _ | sd
  · simp [FlaskCloudant.get, FlaskCloudant.connect, FlaskCloudantDocument.init,
      Document.exists', Document.fetch, FlaskCloudant.disconnect, hcl, hm, hl] at h
    obtain ⟨h1, h2⟩ := h
    subst h2
    rfl
  · simp [FlaskCloudant.get, FlaskCloudant.connect, FlaskCloudantDocument.init,
      Document.exists', Document.fetch, FlaskCloudant.disconnect, hcl, hm, hl] at h

theorem put_noOverride_error_docs_unchanged (f : FlaskCloudant) (c : PyVal)
    (di : Option String) (w w' : World) (e : PyExc)
    (h : FlaskCloudant.put f c di false w = (Except.error e, w')) :
    w'.docs = w.docs := by
  rcases hcl : w.client with _ | cl
  · simp [FlaskCloudant.put, FlaskCloudant.connect, hcl] at h
    obtain ⟨h1, h2⟩ := h
    subst h2
    rfl
  by_cases hm : (cl.user, cl.pwd) ∈ w.server.creds
  swap
  · simp [FlaskCloudant.put, FlaskCloudant.connect, hcl, hm] at h
    obtain ⟨h1, h2⟩ := h
    subst h2
    rfl
  rcases hdi : di with _ | i
  · rcases hcv : c with s | n | xs | _
    · simp [FlaskCloudant.put, FlaskCloudant.connect, Document.exists',
        FlaskCloudantDocument.content, hcl, hm, hdi, hcv] at h
      obtain ⟨h1, h2⟩ := h
      subst h2
      rfl
    · simp [FlaskCloudant.put, FlaskCloudant.connect, Document.exists',
        FlaskCloudantDocument.content, hcl, hm, hdi, hcv] at h
      obtain ⟨h1, h2⟩ := h
      subst h2
      rfl
    · rcases hf : lookupDoc w.docs ("doc-" ++ toString w.docs.length) with _ | sd0
      · simp [FlaskCloudant.put, FlaskCloudant.connect, Document.exists',
          FlaskCloudantDocument.content, FlaskCloudantDocument.save, Document.create,
          freshId, foldl_field_set, FlaskCloudant.disconnect, hcl, hm, hdi, hcv, hf] at h
      · simp [FlaskCloudant.put, FlaskCloudant.connect, Document.exists',
          FlaskCloudantDocument.content, FlaskCloudantDocument.save, Document.create,
          freshId, foldl_field_set, FlaskCloudant.disconnect, hcl, hm, hdi, hcv, hf] at h
        obtain ⟨h1, h2⟩ := h
        subst h2
        rfl
    · simp [FlaskCloudant.put, FlaskCloudant.connect, Document.exists',
        FlaskCloudantDocument.content, hcl, hm, hdi, hcv] at h
      obtain ⟨h1, h2⟩ := h
      subst h2
      rfl
  · rcases hl : lookupDoc w.docs i with _ | sd
    · rcases hcv : c with s | n | xs | _
      · simp [FlaskCloudant.put, FlaskCloudant.connect, Document.exists',
          FlaskCloudantDocument.content, hcl, hm, hdi, hcv, hl] at h
        obtain ⟨h1, h2⟩ := h
        subst h2
        rfl
      · simp [FlaskCloudant.put, FlaskCloudant.connect, Document.exists',
          FlaskCloudantDocument.content, hcl, hm, hdi, hcv, hl] at h
        obtain ⟨h1, h2⟩ := h
        subst h2
        rfl
      · simp [FlaskCloudant.put, FlaskCloudant.connect, Document.exists',
          FlaskCloudantDocument.content, FlaskCloudantDocument.save, Document.create,
          foldl_field_set, FlaskCloudant.disconnect, hcl, hm, hdi, hcv, hl] at h
      · simp [FlaskCloudant.put, FlaskCloudant.connect, Document.exists',
          FlaskCloudantDocument.content, hcl, hm, hdi, hcv, hl] at h
        obtain ⟨h1, h2⟩ := h
        subst h2
        rfl
    · simp [FlaskCloudant.put, FlaskCloudant.connect, Document.exists',
        hcl, hm, hdi, hl] at h
      obtain ⟨h1, h2⟩ := h
      subst h2
      rfl

theorem delete_error_docs_unchanged (f : FlaskCloudant) (i : String) (w w' : World)
    (e : PyExc) (h : FlaskCloudant.delete f i w = (Except.error e, w')) :
    w'.docs = w.docs := by
  rcases hcl : w.client with _ | cl
  · simp [FlaskCloudant.delete, FlaskCloudant.get, FlaskCloudant.connect, hcl] at h
    obtain ⟨h1, h2⟩ := h
    subst h2
    rfl
  by_cases hm : (cl.user, cl.pwd) ∈ w.server.creds
  swap
  · simp [FlaskCloudant.delete, FlaskCloudant.get, FlaskCloudant.connect, hcl, hm] at h
    obtain ⟨h1, h2⟩ := h
    subst h2
    rfl
  rcases hl : lookupDoc w.docs i with _ | sd
  · simp [FlaskCloudant.delete, FlaskCloudant.get, FlaskCloudant.connect,
      FlaskCloudantDocument.init, Document.exists', Document.fetch,
      FlaskCloudant.disconnect, hcl, hm, hl] at h
    obtain ⟨h1, h2⟩ := h
    subst h2
    rfl
  · simp [FlaskCloudant.delete, FlaskCloudant.get, FlaskCloudant.connect,
      FlaskCloudantDocument.init, Document.exists', Document.fetch,
      FlaskCloudantDocument.delete, Document.delete, FlaskCloudant.disconnect,
      hcl, hm, hl] at h

theorem put_override_nonmapping (f : FlaskCloudant) (c : PyVal) (i : String)
    (w : World) (sd : StoredDoc) (hauth : authOK w)
    (hl : lookupDoc w.docs i = some sd) (hnd : ∀ xs, c ≠ PyVal.dict xs) :
    FlaskCloudant.put f c (some i) true w =
      (Except.error (PyExc.fc ⟨700, [CtxArg.str "Content", CtxArg.typeDict]⟩),
       { w with docs := removeDoc w.docs i, connects := w.connects + 1,
                connected := true }) := by
  obtain ⟨cl, hcl, hm⟩ := hauth
  rcases c with s | n | xs | _
  case dict => exact absurd rfl (hnd xs)
  all_goals
    simp [FlaskCloudant.put, FlaskCloudant.connect, Document.exists',
      Document.fetch, Document.delete, FlaskCloudantDocument.content,
      hcl, hm, hl]

/-- C2 (amended): `get`, `delete`, and `put` without override leave the
persisted store unchanged whenever they raise; but `put` with `override=True`
on an existing id deletes the existing document before validating the content,
so a `put` of a non-mapping content raises `InvalidContentError` (status 700)
with the existing document already deleted — a partial effect. -/
theorem C2_atomicity_except_override_delete :
    (∀ f i w w' e, FlaskCloudant.get f i w = (Except.error e, w') → w'.docs = w.docs)
    ∧ (∀ f c di w w' e, FlaskCloudant.put f c di false w = (Except.error e, w') →
        w'.docs = w.docs)
    ∧ (∀ f i w w' e, FlaskCloudant.delete f i w = (Except.error e, w') →
        w'.docs = w.docs)
    ∧ (∀ f c i w sd, authOK w → lookupDoc w.docs i = some sd →
        (∀ xs, c ≠ PyVal.dict xs) →
        FlaskCloudant.put f c (some i) true w =
          (Except.error (PyExc.fc ⟨700, [CtxArg.str "Content", CtxArg.typeDict]⟩),
           { w with docs := removeDoc w.docs i, connects := w.connects + 1,
                    connected := true })
        ∧ lookupDoc (FlaskCloudant.put f c (some i) true w).2.docs i = none) := by
  refine ⟨get_error_docs_unchanged, put_noOverride_error_docs_unchanged,
    delete_error_docs_unchanged, ?_⟩
  intro f c i w sd hauth hl hnd
  have hput := put_override_nonmapping f c i w sd hauth hl hnd
  refine ⟨hput, ?_⟩
  rw [hput]
  exact lookupDoc_removeDoc w.docs i

/-- Counterexample to C2 as stated: in `wX` (which stores a document at
`"x"`), `put` of the non-mapping content `"bad"` at `"x"` with override raises
`FlaskCloudantException(700)` yet the previously existing document has been
deleted, not left unchanged. -/
theorem C2_counterexample :
    FlaskCloudant.put fcApp (PyVal.str "bad") (some "x") true wX =
      (Except.error (PyExc.fc ⟨700, [CtxArg.str "Content", CtxArg.typeDict]⟩),
       { wX with docs := [], connects := 1, connected := true })
    ∧ lookupDoc wX.docs "x" = some sdA
    ∧ lookupDoc (FlaskCloudant.put fcApp (PyVal.str "bad") (some "x") true wX).2.docs "x"
        = none :=
  ⟨rfl, rfl, rfl⟩

/-- Witness for C2 at concrete inputs: a raising `put` of the non-mapping
content `7` with override on the stored id `"x"`. -/
theorem C2_witness :
    FlaskCloudant.put fcApp (PyVal.int 7) (some "x") true wX =
      (Except.error (PyExc.fc ⟨700, [CtxArg.str "Content", CtxArg.typeDict]⟩),
       { wX with docs := removeDoc wX.docs "x", connects := wX.connects + 1,
                 connected := true })
    ∧ lookupDoc (FlaskCloudant.put fcApp (PyVal.int 7) (some "x") true wX).2.docs "x"
        = none :=
  C2_atomicity_except_override_delete.2.2.2 fcApp (PyVal.int 7) "x" wX sdA
    ⟨client0, rfl, by decide⟩ rfl (fun xs h => PyVal.noConfusion h)

/-! ### Merging a dictionary into an empty field set -/

theorem foldl_setField_of_disjoint (xs : List (String × PyVal)) :
    ∀ acc, (xs.map Prod.fst).Nodup →
      (∀ k, k ∈ xs.map Prod.fst → acc.any (fun p => p.1 == k) = false) →
      xs.foldl (fun fs kv => setField fs kv) acc = acc ++ xs := by
  induction xs with
  | nil => intro acc _ _; simp
  | cons kv t ih =>
    intro acc hnd hdisj
    have hkv : acc.any (fun p => p.1 == kv.1) = false := hdisj kv.1 (by simp)
    have hnd' : kv.1 ∉ t.map Prod.fst ∧ (t.map Prod.fst).Nodup :=
      List.nodup_cons.mp (by simpa using hnd)
    have hset : setField acc kv = acc ++ [kv] := by simp [setField, hkv]
    rw [List.foldl_cons, hset, ih (acc ++ [kv]) hnd'.2 ?_]
    · simp
    · intro k hk
      rw [List.any_append]
      have h1 : acc.any (fun p => p.1 == k) = false := by
        refine hdisj k ?_
        simp only [List.map_cons, List.mem_cons]
        exact Or.inr hk
      have h2 : (kv.1 == k) = false := by
        refine beq_eq_false_iff_ne.mpr ?_
        intro hkk
        exact hnd'.1 (hkk ▸ hk)
      simp [h1, h2]

theorem foldl_setField_nil (xs : List (String × PyVal))
    (hnd : (xs.map Prod.fst).Nodup) :
    xs.foldl (fun fs kv => setField fs kv) [] = xs := by
  simpa using foldl_setField_of_disjoint xs [] hnd (fun k _ => rfl)

theorem lookupDoc_removeDoc_self_append (ds : List (String × StoredDoc))
    (i : String) (x : StoredDoc) :
    lookupDoc (removeDoc ds i ++ [(i, x)]) i = some x := by
  rw [lookupDoc_removeDoc_append]
  simp [lookupDoc]

/-- C3: for an id holding an existing document, `put` without override raises
`FlaskCloudantException(405)` carrying the id, whatever the content; with
override it fetches then deletes the existing document, sets the new content,
saves, and returns a handle holding exactly the new content, and a subsequent
`get` of the id yields the new content (the key-distinctness hypothesis
mirrors Python dictionaries, whose keys are unique). -/
theorem C3_put_existing_405_or_override_replaces (f : FlaskCloudant) (i : String)
    (w : World) (sd : StoredDoc) (hauth : authOK w)
    (hl : lookupDoc w.docs i = some sd) :
    (∀ c, FlaskCloudant.put f c (some i) false w =
      (Except.error (PyExc.fc ⟨405, [CtxArg.str i]⟩),
       { w with connects := w.connects + 1, connected := true }))
    ∧ (∀ d, (d.map Prod.fst).Nodup →
        (FlaskCloudant.put f (PyVal.dict d) (some i) true w).1 =
          Except.ok ⟨⟨some i, some 1, d⟩⟩
        ∧ (FlaskCloudant.get f i
            (FlaskCloudant.put f (PyVal.dict d) (some i) true w).2).1 =
          Except.ok ⟨⟨some i, some 1, d⟩⟩) := by
  obtain ⟨cl, hcl, hm⟩ := hauth
  constructor
  · intro c
    simp [FlaskCloudant.put, FlaskCloudant.connect, Document.exists', hcl, hm, hl]
  · intro d hnd
    have hw : FlaskCloudant.put f (PyVal.dict d) (some i) true w =
        (Except.ok ⟨⟨some i, some 1, d⟩⟩,
         { w with docs := removeDoc w.docs i ++ [(i, ⟨1, d⟩)],
                  connects := w.connects + 1, disconnects := w.disconnects + 1,
                  connected := false }) := by
      simp [FlaskCloudant.put, FlaskCloudant.connect, Document.exists', Document.fetch,
        Document.delete, FlaskCloudantDocument.content, foldl_field_set,
        foldl_setField_nil d hnd, FlaskCloudantDocument.save, Document.create,
        lookupDoc_removeDoc, FlaskCloudant.disconnect, hcl, hm, hl]
    rw [hw]
    refine ⟨rfl, ?_⟩
    simp [FlaskCloudant.get, FlaskCloudant.connect, FlaskCloudantDocument.init,
      Document.exists', Document.fetch, FlaskCloudant.disconnect, hcl, hm,
      lookupDoc_removeDoc_self_append]

/-- Witness for C3 at concrete inputs: in `wX`, `put` at the stored id `"x"`
without override raises 405; with override the new content `{"k": 2}` replaces
the old `{"name": "a"}` and `get "x"` returns it. -/
theorem C3_witness :
    FlaskCloudant.put fcApp (PyVal.str "c2") (some "x") false wX =
      (Except.error (PyExc.fc ⟨405, [CtxArg.str "x"]⟩),
       { wX with connects := 1, connected := true })
    ∧ (FlaskCloudant.put fcApp (PyVal.dict [("k", PyVal.int 2)]) (some "x") true wX).1 =
        Except.ok ⟨⟨some "x", some 1, [("k", PyVal.int 2)]⟩⟩
    ∧ (FlaskCloudant.get fcApp "x"
        (FlaskCloudant.put fcApp (PyVal.dict [("k", PyVal.int 2)]) (some "x") true wX).2).1 =
        Except.ok ⟨⟨some "x", some 1, [("k", PyVal.int 2)]⟩⟩ := by
  have h := C3_put_existing_405_or_override_replaces fcApp "x" wX sdA
    ⟨client0, rfl, by decide⟩ rfl
  exact ⟨h.1 (PyVal.str "c2"),
    (h.2 [("k", PyVal.int 2)] (by simp)).1,
    (h.2 [("k", PyVal.int 2)] (by simp)).2⟩

/-- C4 (amended): `content(v)` in set mode with a non-mapping `v` raises a
bare `AssertionError` (carrying no status and no context); it is the facade's
`put` that maps this to `FlaskCloudantException(700, 'Content', dict)`; with a
mapping value, set mode merges each key/value pair into the document's fields
and persists nothing (world unchanged). -/
theorem C4_content_set_mode_assertion_mapped_by_put :
    (∀ hdl w v, (∀ xs, v ≠ PyVal.dict xs) →
      FlaskCloudantDocument.content hdl (some v) w =
        (Except.error PyExc.assertionError, w))
    ∧ (∀ hdl w xs, FlaskCloudantDocument.content hdl (some (PyVal.dict xs)) w =
        (Except.ok (none,
          ⟨{ hdl.document with
              fields := xs.foldl (fun fs kv => setField fs kv) hdl.document.fields }⟩), w))
    ∧ (∀ f v i w, authOK w → lookupDoc w.docs i = none → (∀ xs, v ≠ PyVal.dict xs) →
        (FlaskCloudant.put f v (some i) false w).1 =
          Except.error (PyExc.fc ⟨700, [CtxArg.str "Content", CtxArg.typeDict]⟩)) := by
  refine ⟨?_, ?_, ?_⟩
  · intro hdl w v hnd
    rcases v with s | n | xs | _
    case dict => exact absurd rfl (hnd xs)
    all_goals rfl
  · intro hdl w xs
    simp [FlaskCloudantDocument.content, foldl_field_set]
  · intro f v i w hauth hl hnd
    obtain ⟨cl, hcl, hm⟩ := hauth
    rcases v with s | n | xs | _
    case dict => exact absurd rfl (hnd xs)
    all_goals
      simp [FlaskCloudant.put, FlaskCloudant.connect, Document.exists',
        FlaskCloudantDocument.content, hcl, hm, hl]

/-- Counterexample to C4 as stated: calling `content` with a non-mapping value
directly on a document handle raises the bare `AssertionError`, which is not
the status-700 `FlaskCloudantException` the claim names. -/
theorem C4_counterexample :
    FlaskCloudantDocument.content ⟨⟨some "x", some 1, []⟩⟩ (some (PyVal.str "bad")) wX =
      (Except.error PyExc.assertionError, wX)
    ∧ PyExc.assertionError ≠
        PyExc.fc ⟨700, [CtxArg.str "Content", CtxArg.typeDict]⟩ :=
  ⟨rfl, fun h => PyExc.noConfusion h⟩

/-- Witness for C4 at concrete inputs: `content(3)` raises `AssertionError`,
and `put` of the same non-mapping content maps it to status 700. -/
theorem C4_witness :
    FlaskCloudantDocument.content ⟨⟨some "x", some 1, []⟩⟩ (some (PyVal.int 3)) wX =
      (Except.error PyExc.assertionError, wX)
    ∧ (FlaskCloudant.put fcApp (PyVal.int 3) (some "zz") false wEmpty).1 =
        Except.error (PyExc.fc ⟨700, [CtxArg.str "Content", CtxArg.typeDict]⟩) :=
  ⟨C4_content_set_mode_assertion_mapped_by_put.1 ⟨⟨some "x", some 1, []⟩⟩ wX
      (PyVal.int 3) (fun xs h => PyVal.noConfusion h),
   C4_content_set_mode_assertion_mapped_by_put.2.2 fcApp (PyVal.int 3) "zz" wEmpty
      ⟨client0, rfl, by decide⟩ rfl (fun xs h => PyVal.noConfusion h)⟩

/-- C6: `delete(id)` is definitionally the spec's composition — `get(id)`
followed by a scoped delete of the returned handle — and consequently raises
`FlaskCloudantException(404, id)` on a non-existent id, and after a successful
delete a subsequent `get(id)` raises `FlaskCloudantException(404, id)`. -/
theorem C6_delete_refines_get_then_scoped_delete (f : FlaskCloudant) (i : String)
    (w : World) :
    FlaskCloudant.delete f i w = FlaskCloudant.deleteSpec f i w
    ∧ (authOK w → lookupDoc w.docs i = none →
        (FlaskCloudant.delete f i w).1 =
          Except.error (PyExc.fc ⟨404, [CtxArg.str i]⟩))
    ∧ (∀ sd, authOK w → lookupDoc w.docs i = some sd →
        FlaskCloudant.delete f i w =
          (Except.ok (),
           { w with docs := removeDoc w.docs i, connects := w.connects + 2,
                    disconnects := w.disconnects + 2, connected := false })
        ∧ (FlaskCloudant.get f i (FlaskCloudant.delete f i w).2).1 =
            Except.error (PyExc.fc ⟨404, [CtxArg.str i]⟩)) := by
  refine ⟨rfl, ?_, ?_⟩
  · intro hauth hl
    obtain ⟨cl, hcl, hm⟩ := hauth
    simp [FlaskCloudant.delete, FlaskCloudant.get, FlaskCloudant.connect,
      FlaskCloudantDocument.init, Document.exists', Document.fetch,
      FlaskCloudant.disconnect, hcl, hm, hl]
  · intro sd hauth hl
    obtain ⟨cl, hcl, hm⟩ := hauth
    have hd : FlaskCloudant.delete f i w =
        (Except.ok (),
         { w with docs := removeDoc w.docs i, connects := w.connects + 2,
                  disconnects := w.disconnects + 2, connected := false }) := by
      simp [FlaskCloudant.delete, FlaskCloudant.get, FlaskCloudant.connect,
        FlaskCloudantDocument.init, Document.exists', Document.fetch,
        FlaskCloudantDocument.delete, Document.delete, FlaskCloudant.disconnect,
        hcl, hm, hl]
    refine ⟨hd, ?_⟩
    rw [hd]
    simp [FlaskCloudant.get, FlaskCloudant.connect, FlaskCloudantDocument.init,
      Document.exists', Document.fetch, lookupDoc_removeDoc, hcl, hm]

/-- Witness for C6 at concrete inputs: deleting the missing id `"nope"` raises
404; deleting the stored id `"x"` succeeds and the subsequent `get "x"`
raises 404. -/
theorem C6_witness :
    (FlaskCloudant.delete fcApp "nope" wX).1 =
      Except.error (PyExc.fc ⟨404, [CtxArg.str "nope"]⟩)
    ∧ FlaskCloudant.delete fcApp "x" wX =
        (Except.ok (),
         { wX with docs := [], connects := 2, disconnects := 2, connected := false })
    ∧ (FlaskCloudant.get fcApp "x" (FlaskCloudant.delete fcApp "x" wX).2).1 =
        Except.error (PyExc.fc ⟨404, [CtxArg.str "x"]⟩) := by
  have h1 := (C6_delete_refines_get_then_scoped_delete fcApp "nope" wX).2.1
    ⟨client0, rfl, by decide⟩ rfl
  have h2 := (C6_delete_refines_get_then_scoped_delete fcApp "x" wX).2.2 sdA
    ⟨client0, rfl, by decide⟩ rfl
  exact ⟨h1, h2.1, h2.2⟩

/-- C7: `content()` in get mode triggers a fetch (via `refresh`, one scoped
connect/disconnect) and returns a fresh mapping — the store-managed `_id` and
`_rev` entries followed by the fetched content fields — while the handle ends
up holding exactly the fetched state; the returned mapping is built by
`dict(self.document)` as a value separate from the handle's own field list
(the embedding is purely functional, so mutating the returned copy cannot
change the handle). -/
theorem C7_content_get_mode_fetches_and_copies (hdl : FlaskCloudantDocument)
    (i : String) (w : World) (sd : StoredDoc) (hauth : authOK w)
    (hdi : hdl.document.docId = some i) (hl : lookupDoc w.docs i = some sd) :
    FlaskCloudantDocument.content hdl none w =
      (Except.ok (some (("_id", PyVal.str i) :: ("_rev", PyVal.int sd.rev) :: sd.fields),
        ⟨⟨some i, some sd.rev, sd.fields⟩⟩),
       { w with connects := w.connects + 1, disconnects := w.disconnects + 1,
                connected := false }) := by
  obtain ⟨cl, hcl, hm⟩ := hauth
  simp [FlaskCloudantDocument.content, FlaskCloudantDocument.refresh,
    FlaskCloudant.connect, Document.fetch, FlaskCloudant.disconnect, dictOf,
    hcl, hm, hdi, hl]

/-- Witness for C7 at a concrete input: a stale handle for `"x"` in `wX` whose
get-mode `content()` returns the stored content with `_id` and `_rev`. -/
theorem C7_witness :
    FlaskCloudantDocument.content ⟨⟨some "x", none, []⟩⟩ none wX =
      (Except.ok (some [("_id", PyVal.str "x"), ("_rev", PyVal.int 1),
          ("name", PyVal.str "a")],
        ⟨⟨some "x", some 1, [("name", PyVal.str "a")]⟩⟩),
       { wX with connects := 1, disconnects := 1, connected := false }) :=
  C7_content_get_mode_fetches_and_copies ⟨⟨some "x", none, []⟩⟩ "x" wX sdA
    ⟨client0, rfl, by decide⟩ rfl rfl

/-- C8 (amended): `init_app` performs no configuration validation before
connecting — it always constructs the client and calls `connect()` first.
When the transport rejects the credentials it raises an error carrying the
HTTP status and the username; once connected, an absent database — including
the case of a missing `COUCH_DB` key — raises status 400 carrying the
configured database value (`None` when the key is missing); with an existing
database it succeeds after one scoped connect/disconnect. -/
theorem C8_init_app_connects_before_validating (self : FlaskCloudant)
    (app : Config) (w : World) :
    ((app.couch_user, app.couch_pwd) ∉ w.server.creds →
      FlaskCloudant.init_app self app w =
        (Except.error (PyExc.fc ⟨401, [ctxOf app.couch_user]⟩),
         { w with client := some ⟨app.couch_user, app.couch_pwd, app.couch_url⟩ }))
    ∧ ((app.couch_user, app.couch_pwd) ∈ w.server.creds → app.couch_db = none →
      FlaskCloudant.init_app self app w =
        (Except.error (PyExc.fc ⟨400, [CtxArg.pynone]⟩),
         { w with client := some ⟨app.couch_user, app.couch_pwd, app.couch_url⟩,
                  connects := w.connects + 1, connected := true }))
    ∧ (∀ db, (app.couch_user, app.couch_pwd) ∈ w.server.creds →
        app.couch_db = some db → db ∉ w.server.dbs →
      FlaskCloudant.init_app self app w =
        (Except.error (PyExc.fc ⟨400, [CtxArg.str db]⟩),
         { w with client := some ⟨app.couch_user, app.couch_pwd, app.couch_url⟩,
                  connects := w.connects + 1, connected := true }))
    ∧ (∀ db, (app.couch_user, app.couch_pwd) ∈ w.server.creds →
        app.couch_db = some db → db ∈ w.server.dbs →
      FlaskCloudant.init_app self app w =
        (Except.ok { self with _db := some db },
         { w with client := some ⟨app.couch_user, app.couch_pwd, app.couch_url⟩,
                  connects := w.connects + 1, disconnects := w.disconnects + 1,
                  connected := false })) := by
  refine ⟨?_, ?_, ?_, ?_⟩
  · intro hm
    simp [FlaskCloudant.init_app, FlaskCloudant.connect, hm]
  · intro hm hdb
    simp [FlaskCloudant.init_app, FlaskCloudant.connect, hm, hdb]
  · intro db hm hdb hd
    simp [FlaskCloudant.init_app, FlaskCloudant.connect, hm, hdb, hd]
  · intro db hm hdb hd
    simp [FlaskCloudant.init_app, FlaskCloudant.connect, FlaskCloudant.disconnect,
      hm, hdb, hd]

/-- Counterexample to C8 as stated: with `COUCH_DB` missing from the
configuration, `init_app` still opens a connection (the connect count goes
from 0 to 1 and the state becomes Connected) before the missing key surfaces
as the status-400 error — so required keys are not validated before
connecting. -/
theorem C8_counterexample :
    FlaskCloudant.init_app ⟨none⟩ ⟨some "u", some "p", none, some "http://couch"⟩ wEmpty =
      (Except.error (PyExc.fc ⟨400, [CtxArg.pynone]⟩),
       { wEmpty with client := some ⟨some "u", some "p", some "http://couch"⟩,
                     connects := 1, connected := true })
    ∧ (FlaskCloudant.init_app ⟨none⟩
        ⟨some "u", some "p", none, some "http://couch"⟩ wEmpty).2.connects = 1
    ∧ wEmpty.connects = 0 :=
  ⟨rfl, rfl, rfl⟩

/-- Witness for C8 at concrete inputs: rejected credentials raise carrying the
username; a missing database raises 400 after connecting; a present database
initializes successfully. -/
theorem C8_witness :
    FlaskCloudant.init_app ⟨none⟩ ⟨some "evil", some "p", some "db", some "u2"⟩ wEmpty =
      (Except.error (PyExc.fc ⟨401, [CtxArg.str "evil"]⟩),
       { wEmpty with client := some ⟨some "evil", some "p", some "u2"⟩ })
    ∧ FlaskCloudant.init_app ⟨none⟩ ⟨some "u", some "p", some "nodb", some "u2"⟩ wEmpty =
        (Except.error (PyExc.fc ⟨400, [CtxArg.str "nodb"]⟩),
         { wEmpty with client := some ⟨some "u", some "p", some "u2"⟩,
                       connects := 1, connected := true })
    ∧ FlaskCloudant.init_app ⟨none⟩ ⟨some "u", some "p", some "db", some "u2"⟩ wEmpty =
        (Except.ok ⟨some "db"⟩,
         { wEmpty with client := some ⟨some "u", some "p", some "u2"⟩,
                       connects := 1, disconnects := 1, connected := false }) :=
  ⟨(C8_init_app_connects_before_validating ⟨none⟩
      ⟨some "evil", some "p", some "db", some "u2"⟩ wEmpty).1 (by decide),
   (C8_init_app_connects_before_validating ⟨none⟩
      ⟨some "u", some "p", some "nodb", some "u2"⟩ wEmpty).2.2.1 "nodb"
      (by decide) rfl (by decide),
   (C8_init_app_connects_before_validating ⟨none⟩
      ⟨some "u", some "p", some "db", some "u2"⟩ wEmpty).2.2.2 "db"
      (by decide) rfl (by decide)⟩

/-- Running `FlaskCloudantDocument.exists` under an installed, accepted
client: one scoped connect/disconnect pair around the remote check. -/
theorem exists_run (hdl : FlaskCloudantDocument) (w : World) (cl : CouchDB)
    (hcl : w.client = some cl) (hm : (cl.user, cl.pwd) ∈ w.server.creds) :
    FlaskCloudantDocument.exists' hdl w =
      (Except.ok (hdl.document.exists' w),
       { w with connects := w.connects + 1, disconnects := w.disconnects + 1,
                connected := false }) := by
  simp [FlaskCloudantDocument.exists', FlaskCloudant.connect,
    FlaskCloudant.disconnect, Document.exists', hcl, hm]

/-- C10: `FlaskCloudant.CLIENT` is class-level shared state: `init_app` on any
instance unconditionally replaces the global client (on success and on every
error path alike), and the scoped connect of any previously created document
handle goes through whatever client is currently installed — after a
successful `init_app` any handle's `exists()` connects with the new client,
and after an `init_app` whose credentials the server rejects any handle's
`exists()` fails with `HTTPError` 401, however valid the client before was. -/
theorem C10_client_is_shared_class_state :
    (∀ self app w r w', FlaskCloudant.init_app self app w = (r, w') →
      w'.client = some ⟨app.couch_user, app.couch_pwd, app.couch_url⟩)
    ∧ (∀ self app w self' w',
        FlaskCloudant.init_app self app w = (Except.ok self', w') →
        ∀ hdl, FlaskCloudantDocument.exists' hdl w' =
          (Except.ok (hdl.document.exists' w'),
           { w' with connects := w'.connects + 1, disconnects := w'.disconnects + 1,
                     connected := false }))
    ∧ (∀ self app w w', (app.couch_user, app.couch_pwd) ∉ w.server.creds →
        (FlaskCloudant.init_app self app w).2 = w' →
        ∀ hdl, (FlaskCloudantDocument.exists' hdl w').1 =
          Except.error (PyExc.httpError 401)) := by
  refine ⟨?_, ?_, ?_⟩
  · intro self app w r w' h
    by_cases hm : (app.couch_user, app.couch_pwd) ∈ w.server.creds
    · rcases hdb : app.couch_db with _ | db
      · simp [FlaskCloudant.init_app, FlaskCloudant.connect, hm, hdb] at h
        obtain ⟨h1, h2⟩ := h
        subst h2
        rfl
      · by_cases hd : db ∈ w.server.dbs
        · simp [FlaskCloudant.init_app, FlaskCloudant.connect,
            FlaskCloudant.disconnect, hm, hdb, hd] at h
          obtain ⟨h1, h2⟩ := h
          subst h2
          rfl
        · simp [FlaskCloudant.init_app, FlaskCloudant.connect, hm, hdb, hd] at h
          obtain ⟨h1, h2⟩ := h
          subst h2
          rfl
    · simp [FlaskCloudant.init_app, FlaskCloudant.connect, hm] at h
      obtain ⟨h1, h2⟩ := h
      subst h2
      rfl
  · intro self app w self' w' h hdl
    by_cases hm : (app.couch_user, app.couch_pwd) ∈ w.server.creds
    swap
    · simp [FlaskCloudant.init_app, FlaskCloudant.connect, hm] at h
    rcases hdb : app.couch_db with _ | db
    · simp [FlaskCloudant.init_app, FlaskCloudant.connect, hm, hdb] at h
    by_cases hd : db ∈ w.server.dbs
    swap
    · simp [FlaskCloudant.init_app, FlaskCloudant.connect, hm, hdb, hd] at h
    simp [FlaskCloudant.init_app, FlaskCloudant.connect, FlaskCloudant.disconnect,
      hm, hdb, hd] at h
    obtain ⟨h1, h2⟩ := h
    subst h2
    exact exists_run hdl _ ⟨app.couch_user, app.couch_pwd, app.couch_url⟩ rfl hm
  · intro self app w w' hm hw hdl
    subst hw
    simp [FlaskCloudant.init_app, FlaskCloudant.connect,
      FlaskCloudantDocument.exists', hm]

/-- Witness for C10 at concrete inputs: `init_app` on a fresh instance with
rejected credentials replaces the (previously valid) global client of `wX`,
and a handle created earlier for id `"x"` then fails to connect with 401. -/
theorem C10_witness :
    (FlaskCloudant.init_app ⟨none⟩
        ⟨some "evil", some "p", some "db", some "u2"⟩ wX).2.client =
      some ⟨some "evil", some "p", some "u2"⟩
    ∧ (FlaskCloudantDocument.exists' ⟨⟨some "x", none, []⟩⟩
        (FlaskCloudant.init_app ⟨none⟩
          ⟨some "evil", some "p", some "db", some "u2"⟩ wX).2).1 =
      Except.error (PyExc.httpError 401) :=
  ⟨C10_client_is_shared_class_state.1 ⟨none⟩
      ⟨some "evil", some "p", some "db", some "u2"⟩ wX
      (FlaskCloudant.init_app ⟨none⟩
        ⟨some "evil", some "p", some "db", some "u2"⟩ wX).1
      (FlaskCloudant.init_app ⟨none⟩
        ⟨some "evil", some "p", some "db", some "u2"⟩ wX).2 rfl,
   C10_client_is_shared_class_state.2.2 ⟨none⟩
      ⟨some "evil", some "p", some "db", some "u2"⟩ wX
      (FlaskCloudant.init_app ⟨none⟩
        ⟨some "evil", some "p", some "db", some "u2"⟩ wX).2
      (by decide) rfl ⟨⟨some "x", none, []⟩⟩⟩
